import Mathlib

/-!
Verification of the requisition data model and filter-matching engine of the
lenderAssistant repository (`requisitions.py`).

Modelling conventions:
* Python `float` fields are modelled as rationals (`ℚ`): every claim about them
  concerns only order comparisons on concrete decimal values.
* Python `int` fields are modelled as `Int`.
* `Grade` is an `IntEnum` with members `A1 = 0` through `C7 = 20`, compared by
  their integer values; it is modelled as `Fin 21`.
* Optional filter criteria (`x | None`) are modelled as `Option`.
* The dynamic `isinstance` dispatch of `DetailedRequisition.meets_filter` is
  modelled by a tagged union `AnyFilter` of the two filter kinds.
-/

namespace Lender

/-- Requisition risk grades: `A1 = 0` (lowest risk) … `C7 = 20` (highest risk),
an `IntEnum` compared by integer value. -/
abbrev Grade := Fin 21

def Grade.A1 : Grade := 0
def Grade.A7 : Grade := 6
def Grade.B3 : Grade := 9
def Grade.B5 : Grade := 11
def Grade.C7 : Grade := 20

/-- Requisition destination enumeration (`Destination` in `requisitions.py`). -/
inductive Destination
  | FAMILY
  | PAY_DEBTS
  | CAR
  | BUSINESS
  | EDUCATION
  | HOUSING
  | PERSONAL_EXPENSES
deriving DecidableEq, Fintype, Repr

/-- The string value backing each `Destination` member. -/
def Destination.rawValue : Destination → String
  | .FAMILY => "Familiar"
  | .PAY_DEBTS => "Pagar Deudas"
  | .CAR => "Automóvil"
  | .BUSINESS => "Negocio"
  | .EDUCATION => "Educación"
  | .HOUSING => "Vivienda"
  | .PERSONAL_EXPENSES => "Gastos Personales"

/-- The declared members of `Destination`, in declaration order. -/
def Destination.members : List Destination :=
  [.FAMILY, .PAY_DEBTS, .CAR, .BUSINESS, .EDUCATION, .HOUSING, .PERSONAL_EXPENSES]

/-- Value lookup `Destination(raw)`: the member whose backing value equals `raw`,
`none` when no member matches (Python raises `ValueError` there). -/
def Destination.ofRaw (s : String) : Option Destination :=
  Destination.members.find? (fun d => d.rawValue == s)

/-- Education levels enumeration (`Education` in `requisitions.py`), an ordered
`IntEnum` with `UNKNOWN = 0`. -/
inductive Education
  | UNKNOWN
  | TECHNICIAN
  | PROFESIONAL
  | MASTERS
  | PHD
deriving DecidableEq, Fintype, Repr

/-- Name lookup for `Education` members (an `IntEnum` is member-name addressed;
its backing values are integers, not strings). -/
def Education.lookupName : String → Option Education
  | "UNKNOWN" => some .UNKNOWN
  | "TECHNICIAN" => some .TECHNICIAN
  | "PROFESIONAL" => some .PROFESIONAL
  | "MASTERS" => some .MASTERS
  | "PHD" => some .PHD
  | _ => none

/-- Modelled from the spec: the repository declares the `Education` enumeration
but the routine that parses a scraped education string into it is not in
`requisitions.py` (it lives in the scraper layer, which is absent from the
sources). Per the spec and the enumeration's own documentation: the raw string
is normalized to uppercase before member lookup, the empty string parses to
`UNKNOWN`, and an unrecognized non-empty string is a parse error (`none`). -/
def Education.parse (s : String) : Option Education :=
  if s = "" then some .UNKNOWN
  else Education.lookupName s.toUpper

/-- Type of housing of the requisitioner (`Housing` in `requisitions.py`);
`UNKNOWN` is backed by the empty string. -/
inductive Housing
  | UNKNOWN
  | RENTED
  | LIVES_WITH_FAMILY
  | OWNER
deriving DecidableEq, Fintype, Repr

/-- The string value backing each `Housing` member. -/
def Housing.rawValue : Housing → String
  | .UNKNOWN => ""
  | .RENTED => "Rentada"
  | .LIVES_WITH_FAMILY => "Vivo con familia"
  | .OWNER => "Propietario"

/-- The declared members of `Housing`, in declaration order. -/
def Housing.members : List Housing := [.UNKNOWN, .RENTED, .LIVES_WITH_FAMILY, .OWNER]

/-- Value lookup `Housing(raw)`: `none` when no member matches (Python raises
`ValueError` there). -/
def Housing.ofRaw (s : String) : Option Housing :=
  Housing.members.find? (fun h => h.rawValue == s)

/-- Type of occupation of the requisitioner (`OccupationType` in
`requisitions.py`); `UNKNOWN` is backed by the empty string. -/
inductive OccupationType
  | UNKNOWN
  | EMPLOYEE
  | FREELANCER
  | BUSINESS_OWNER
deriving DecidableEq, Fintype, Repr

/-- The string value backing each `OccupationType` member. -/
def OccupationType.rawValue : OccupationType → String
  | .UNKNOWN => ""
  | .EMPLOYEE => "Empleado"
  | .FREELANCER => "Trabajo por mi cuenta"
  | .BUSINESS_OWNER => "Tengo un negocio"

/-- The declared members of `OccupationType`, in declaration order. -/
def OccupationType.members : List OccupationType :=
  [.UNKNOWN, .EMPLOYEE, .FREELANCER, .BUSINESS_OWNER]

/-- Value lookup `OccupationType(raw)`: `none` when no member matches (Python
raises `ValueError` there). -/
def OccupationType.ofRaw (s : String) : Option OccupationType :=
  OccupationType.members.find? (fun o => o.rawValue == s)

/-- Summary record collected from the requisition list page
(`Requisition` in `requisitions.py`). -/
structure Requisition where
  id : String
  url : String
  grade : Grade
  interest_rate : ℚ
  score : Int
  destination : Destination
  term : Int
  amount : ℚ
  remaining_funding_amount : ℚ
  loan_number : Int
deriving DecidableEq, Repr

/-- Base filter criteria (`Filter` in `requisitions.py`); every criterion is
optional and `none` means unset. -/
structure Filter where
  minimum_risk_grade : Option Grade
  maximum_risk_grade : Option Grade
  minimum_score : Option Int
  maximum_score : Option Int
  minimum_interest_rate : Option ℚ
  maximum_interest_rate : Option ℚ
  destination_whitelist : Option (List Destination)
  destination_blacklist : Option (List Destination)
  minimum_term : Option Int
  maximum_term : Option Int
  minimum_amount : Option ℚ
  maximum_amount : Option ℚ
  minimum_remaining_funding_amount : Option ℚ
  maximum_remaining_funding_amount : Option ℚ
  minimum_loan_number : Option Int
  maximum_loan_number : Option Int
deriving DecidableEq, Repr

/-- The `Filter` with every criterion unset: the constructor's defaults. -/
def Filter.noCriteria : Filter :=
  ⟨none, none, none, none, none, none, none, none,
   none, none, none, none, none, none, none, none⟩

/-- One minimum-bound test of `meets_filter`:
`filter.minimum_x is not None and filter.minimum_x > self.x` (the guard of an
early `return False`). -/
def checkMin {α : Type} [LinearOrder α] (bound : Option α) (v : α) : Bool :=
  match bound with
  | some m => decide (m > v)
  | none => false

/-- One maximum-bound test of `meets_filter`:
`filter.maximum_x is not None and filter.maximum_x < self.x` (the guard of an
early `return False`). -/
def checkMax {α : Type} [LinearOrder α] (bound : Option α) (v : α) : Bool :=
  match bound with
  | some m => decide (m < v)
  | none => false

/-- One whitelist test of `meets_filter`: when the whitelist is set, scan it for
the record's value and fail (`return False`) when the scan finds no match. -/
def whitelistFails {α : Type} [DecidableEq α] (wl : Option (List α)) (v : α) : Bool :=
  match wl with
  | some l => !(l.any (fun x => decide (x = v)))
  | none => false

/-- One blacklist test of `meets_filter`: when the blacklist is set, scan it for
the record's value and fail (`return False`) when the scan finds a match. -/
def blacklistFails {α : Type} [DecidableEq α] (bl : Option (List α)) (v : α) : Bool :=
  match bl with
  | some l => l.any (fun x => decide (x = v))
  | none => false

/-- One exact-match flag test of `DetailedRequisition.meets_filter`:
`filter.flag is not None and filter.flag != self.flag` (the guard of an early
`return False`). -/
def flagFails {α : Type} [DecidableEq α] (flag : Option α) (v : α) : Bool :=
  match flag with
  | some b => decide (b ≠ v)
  | none => false

/-- `Requisition.meets_filter`: tests the base filter criteria one by one, in
source order, and stops at the first unmet criterion. -/
def Requisition.meets_filter (self : Requisition) (filter : Filter) : Bool :=
  if checkMin filter.minimum_risk_grade self.grade then false
  else if checkMax filter.maximum_risk_grade self.grade then false
  else if checkMin filter.minimum_score self.score then false
  else if checkMax filter.maximum_score self.score then false
  else if checkMin filter.minimum_interest_rate self.interest_rate then false
  else if checkMax filter.maximum_interest_rate self.interest_rate then false
  else if whitelistFails filter.destination_whitelist self.destination then false
  else if blacklistFails filter.destination_blacklist self.destination then false
  else if checkMin filter.minimum_term self.term then false
  else if checkMax filter.maximum_term self.term then false
  else if checkMin filter.minimum_amount self.amount then false
  else if checkMax filter.maximum_amount self.amount then false
  else if checkMin filter.minimum_remaining_funding_amount self.remaining_funding_amount then false
  else if checkMax filter.maximum_remaining_funding_amount self.remaining_funding_amount then false
  else if checkMin filter.minimum_loan_number self.loan_number then false
  else if checkMax filter.maximum_loan_number self.loan_number then false
  else true

/-- Fully detailed record collected from the individual requisition page
(`DetailedRequisition` in `requisitions.py`): an embedded copy of the base
record's fields plus the extended fields. -/
structure DetailedRequisition where
  toRequisition : Requisition
  monthly_payment : ℚ
  credit_history_length : Int
  credit_history_inquiries : Int
  opened_accounts : Int
  total_income : ℚ
  total_expenses : ℚ
  age : Int
  dependents : Int
  has_major_medical_insurance : Bool
  has_own_vehicle : Bool
  education : Education
  state_of_residence : String
  housing : Housing
  occupation : String
  tenure : Int
  occupation_type : OccupationType
deriving DecidableEq, Repr

/-- `DetailedRequisition.__init__`: `super().__init__(**base_requisition.__dict__)`
copies every base field of `base_requisition` into the new record, one keyword
argument per field, and the extended fields are then assigned. -/
def DetailedRequisition.fromBase
    (base_requisition : Requisition)
    (monthly_payment : ℚ)
    (credit_history_length : Int)
    (credit_history_inquiries : Int)
    (opened_accounts : Int)
    (total_income : ℚ)
    (total_expenses : ℚ)
    (age : Int)
    (dependents : Int)
    (has_major_medical_insurance : Bool)
    (has_own_vehicle : Bool)
    (education : Education)
    (state_of_residence : String)
    (housing : Housing)
    (occupation : String)
    (tenure : Int)
    (occupation_type : OccupationType) : DetailedRequisition where
  toRequisition :=
    { id := base_requisition.id
      url := base_requisition.url
      grade := base_requisition.grade
      interest_rate := base_requisition.interest_rate
      score := base_requisition.score
      destination := base_requisition.destination
      term := base_requisition.term
      amount := base_requisition.amount
      remaining_funding_amount := base_requisition.remaining_funding_amount
      loan_number := base_requisition.loan_number }
  monthly_payment := monthly_payment
  credit_history_length := credit_history_length
  credit_history_inquiries := credit_history_inquiries
  opened_accounts := opened_accounts
  total_income := total_income
  total_expenses := total_expenses
  age := age
  dependents := dependents
  has_major_medical_insurance := has_major_medical_insurance
  has_own_vehicle := has_own_vehicle
  education := education
  state_of_residence := state_of_residence
  housing := housing
  occupation := occupation
  tenure := tenure
  occupation_type := occupation_type

/-- Detailed filter criteria (`DetailedFilter` in `requisitions.py`): an
embedded base `Filter` plus the detailed criteria, each optional. -/
structure DetailedFilter where
  toFilter : Filter
  minimum_monthly_payment : Option ℚ
  maximum_monthly_payment : Option ℚ
  minimum_credit_history_length : Option Int
  maximum_credit_history_length : Option Int
  minimum_credit_history_inquiries : Option Int
  maximum_credit_history_inquiries : Option Int
  minimum_opened_accounts : Option Int
  maximum_opened_accounts : Option Int
  minimum_total_income : Option ℚ
  maximum_total_income : Option ℚ
  minimum_total_expenses : Option ℚ
  maximum_total_expenses : Option ℚ
  minimum_age : Option Int
  maximum_age : Option Int
  minimum_dependents : Option Int
  maximum_dependents : Option Int
  has_major_medical_insurance : Option Bool
  has_own_vehicle : Option Bool
  housing_whitelist : Option (List Housing)
  housing_blacklist : Option (List Housing)
  minimum_tenure : Option Int
  maximum_tenure : Option Int
  occupation_type_whitelist : Option (List OccupationType)
  occupation_type_blacklist : Option (List OccupationType)
deriving DecidableEq, Repr

/-- The `DetailedFilter` over a given base filter with every detailed criterion
unset: the constructor's defaults. -/
def DetailedFilter.noCriteria (base : Filter) : DetailedFilter :=
  ⟨base, none, none, none, none, none, none, none, none, none, none, none, none,
   none, none, none, none, none, none, none, none, none, none, none, none⟩

/-- The argument of `DetailedRequisition.meets_filter` is annotated
`Filter | DetailedFilter`; the method dispatches on
`isinstance(filter, DetailedFilter)`. -/
inductive AnyFilter
  | base (f : Filter)
  | detailed (f : DetailedFilter)
deriving DecidableEq, Repr

/-- `DetailedRequisition.meets_filter`: when the filter is not a
`DetailedFilter`, apply only the base criteria (`super().meets_filter`);
otherwise apply the base criteria first and then the detailed criteria one by
one, in source order, stopping at the first unmet criterion. -/
def DetailedRequisition.meets_filter (self : DetailedRequisition) (filter : AnyFilter) : Bool :=
  match filter with
  | .base f => self.toRequisition.meets_filter f
  | .detailed f =>
    if !(self.toRequisition.meets_filter f.toFilter) then false
    else if checkMin f.minimum_monthly_payment self.monthly_payment then false
    else if checkMax f.maximum_monthly_payment self.monthly_payment then false
    else if checkMin f.minimum_credit_history_length self.credit_history_length then false
    else if checkMax f.maximum_credit_history_length self.credit_history_length then false
    else if checkMin f.minimum_credit_history_inquiries self.credit_history_inquiries then false
    else if checkMax f.maximum_credit_history_inquiries self.credit_history_inquiries then false
    else if checkMin f.minimum_opened_accounts self.opened_accounts then false
    else if checkMax f.maximum_opened_accounts self.opened_accounts then false
    else if checkMin f.minimum_total_income self.total_income then false
    else if checkMax f.maximum_total_income self.total_income then false
    else if checkMin f.minimum_total_expenses self.total_expenses then false
    else if checkMax f.maximum_total_expenses self.total_expenses then false
    else if checkMin f.minimum_age self.age then false
    else if checkMax f.maximum_age self.age then false
    else if checkMin f.minimum_dependents self.dependents then false
    else if checkMax f.maximum_dependents self.dependents then false
    else if flagFails f.has_major_medical_insurance self.has_major_medical_insurance then false
    else if flagFails f.has_own_vehicle self.has_own_vehicle then false
    else if whitelistFails f.housing_whitelist self.housing then false
    else if blacklistFails f.housing_blacklist self.housing then false
    else if checkMin f.minimum_tenure self.tenure then false
    else if checkMax f.maximum_tenure self.tenure then false
    else if whitelistFails f.occupation_type_whitelist self.occupation_type then false
    else if blacklistFails f.occupation_type_blacklist self.occupation_type then false
    else true

/-- Modelled from the spec: applying a loaded filter list to a record
collection is done by the orchestration layer, which is absent from the
sources. Per the spec, a record is included exactly when some filter in the
list matches it (union semantics, short-circuiting at the first matching
filter), and an empty filter list yields an empty result. -/
def filterRequisitions (records : List Requisition) (fs : List Filter) : List Requisition :=
  records.filter (fun r => fs.any (fun f => r.meets_filter f))

/-- Exceptions the loader can raise at runtime. -/
inductive PyError
  | runtimeError
  | attributeError
  | valueError
  | typeError
deriving DecidableEq, Repr

/-- Values produced by `yaml.safe_load` for one filter entry: plain data only. -/
inductive YVal
  | null
  | b (v : Bool)
  | i (v : Int)
  | q (v : ℚ)
  | s (v : String)
  | list (l : List YVal)
deriving Repr

/-- The parameter names of `Filter.__init__` apart from `self`, as obtained by
`inspect.signature`. -/
def filterParamNames : List String :=
  ["minimum_risk_grade", "maximum_risk_grade", "minimum_score", "maximum_score",
   "minimum_interest_rate", "maximum_interest_rate",
   "destination_whitelist", "destination_blacklist",
   "minimum_term", "maximum_term", "minimum_amount", "maximum_amount",
   "minimum_remaining_funding_amount", "maximum_remaining_funding_amount",
   "minimum_loan_number", "maximum_loan_number"]

/-- The parameter names of `DetailedFilter.__init__` apart from `self`
(`base_filter` is a declared parameter and so belongs to this set), as obtained
by `inspect.signature`. -/
def detailedParamNames : List String :=
  ["base_filter",
   "minimum_monthly_payment", "maximum_monthly_payment",
   "minimum_credit_history_length", "maximum_credit_history_length",
   "minimum_credit_history_inquiries", "maximum_credit_history_inquiries",
   "minimum_opened_accounts", "maximum_opened_accounts",
   "minimum_total_income", "maximum_total_income",
   "minimum_total_expenses", "maximum_total_expenses",
   "minimum_age", "maximum_age", "minimum_dependents", "maximum_dependents",
   "has_major_medical_insurance", "has_own_vehicle",
   "housing_whitelist", "housing_blacklist",
   "minimum_tenure", "maximum_tenure",
   "occupation_type_whitelist", "occupation_type_blacklist"]

/-- A key survives the key-dropping loop of `Filter.parse_all_from_yaml` when it
is a declared `Filter.__init__` parameter other than `self`. -/
def isFilterKey (k : String) : Bool :=
  filterParamNames.contains k

/-- A key is classified as a detailed-kind argument by
`DetailedFilter.parse_all_from_yaml` when it is a declared
`DetailedFilter.__init__` parameter other than `self`. -/
def isDetailedKey (k : String) : Bool :=
  detailedParamNames.contains k

/-- The key-dropping loop of `Filter.parse_all_from_yaml`:
`for key, _ in processed_filter.items(): if <invalid>: processed_filter.pop(key)`.
CPython dictionary iterators compare the dictionary's current size against the
size recorded at iterator creation on every `__next__` call (including the
final call that would raise `StopIteration`), and raise
`RuntimeError: dictionary changed size during iteration` on a mismatch; so the
first `pop` makes the very next iteration step raise. `popped` records whether
a `pop` has happened since the iterator was created. -/
def popAllInvalid (valid : String → Bool) :
    List (String × YVal) → Bool → Except PyError (List (String × YVal))
  | [], popped => if popped then .error .runtimeError else .ok []
  | (k, v) :: rest, popped =>
    if popped then .error .runtimeError
    else if valid k then
      (popAllInvalid valid rest false).map (fun r => (k, v) :: r)
    else
      popAllInvalid valid rest true

/-- Dictionary key lookup on a filter entry. -/
def lookupKey (kw : List (String × YVal)) (k : String) : Option YVal :=
  (kw.find? (fun p => p.1 == k)).map Prod.snd

/-- Grade code lookup (`Grade` members are addressed by their closed codes
`A1`..`C7`). -/
def Grade.ofCode : String → Option Grade
  | "A1" => some 0 | "A2" => some 1 | "A3" => some 2 | "A4" => some 3
  | "A5" => some 4 | "A6" => some 5 | "A7" => some 6
  | "B1" => some 7 | "B2" => some 8 | "B3" => some 9 | "B4" => some 10
  | "B5" => some 11 | "B6" => some 12 | "B7" => some 13
  | "C1" => some 14 | "C2" => some 15 | "C3" => some 16 | "C4" => some 17
  | "C5" => some 18 | "C6" => some 19 | "C7" => some 20
  | _ => none

/-- Decode an optional integer criterion value; an absent or null key leaves
the criterion unset. -/
def decodeOptInt : Option YVal → Except PyError (Option Int)
  | none => .ok none
  | some .null => .ok none
  | some (.i n) => .ok (some n)
  | some _ => .error .typeError

/-- Decode an optional numeric (float) criterion value; an absent or null key
leaves the criterion unset, and an integer is accepted where a float is
expected. -/
def decodeOptRat : Option YVal → Except PyError (Option ℚ)
  | none => .ok none
  | some .null => .ok none
  | some (.i n) => .ok (some (n : ℚ))
  | some (.q x) => .ok (some x)
  | some _ => .error .typeError

/-- Decode an optional risk-grade criterion value from its closed code. -/
def decodeOptGrade : Option YVal → Except PyError (Option Grade)
  | none => .ok none
  | some .null => .ok none
  | some (.s c) =>
    match Grade.ofCode c with
    | some g => .ok (some g)
    | none => .error .valueError
  | some _ => .error .typeError

/-- Decode an optional exact-match flag value. -/
def decodeOptBool : Option YVal → Except PyError (Option Bool)
  | none => .ok none
  | some .null => .ok none
  | some (.b v) => .ok (some v)
  | some _ => .error .typeError

/-- Decode one raw whitelist/blacklist element through an enum value lookup:
`Enum(raw)` raises `ValueError` when no member's backing value matches. -/
def decodeEnumElem {α : Type} (ofRaw : String → Option α) : YVal → Except PyError α
  | .s str =>
    match ofRaw str with
    | some a => .ok a
    | none => .error .valueError
  | _ => .error .valueError

/-- Decode an optional whitelist/blacklist value through an enum value lookup,
element by element; an absent or null key leaves the criterion unset. -/
def decodeOptEnumList {α : Type} (ofRaw : String → Option α) :
    Option YVal → Except PyError (Option (List α))
  | none => .ok none
  | some .null => .ok none
  | some (.list l) => (l.mapM (decodeEnumElem ofRaw)).map some
  | some _ => .error .typeError

/-- Construct a `Filter` from the surviving keyword bindings of one entry,
defaulting every omitted criterion to unset (`cls(**processed_filter)` against
the all-`None` defaults of `Filter.__init__`). -/
def Filter.fromKwargs (kw : List (String × YVal)) : Except PyError Filter := do
  let minimum_risk_grade ← decodeOptGrade (lookupKey kw "minimum_risk_grade")
  let maximum_risk_grade ← decodeOptGrade (lookupKey kw "maximum_risk_grade")
  let minimum_score ← decodeOptInt (lookupKey kw "minimum_score")
  let maximum_score ← decodeOptInt (lookupKey kw "maximum_score")
  let minimum_interest_rate ← decodeOptRat (lookupKey kw "minimum_interest_rate")
  let maximum_interest_rate ← decodeOptRat (lookupKey kw "maximum_interest_rate")
  let destination_whitelist ← decodeOptEnumList Destination.ofRaw (lookupKey kw "destination_whitelist")
  let destination_blacklist ← decodeOptEnumList Destination.ofRaw (lookupKey kw "destination_blacklist")
  let minimum_term ← decodeOptInt (lookupKey kw "minimum_term")
  let maximum_term ← decodeOptInt (lookupKey kw "maximum_term")
  let minimum_amount ← decodeOptRat (lookupKey kw "minimum_amount")
  let maximum_amount ← decodeOptRat (lookupKey kw "maximum_amount")
  let minimum_remaining_funding_amount ← decodeOptRat (lookupKey kw "minimum_remaining_funding_amount")
  let maximum_remaining_funding_amount ← decodeOptRat (lookupKey kw "maximum_remaining_funding_amount")
  let minimum_loan_number ← decodeOptInt (lookupKey kw "minimum_loan_number")
  let maximum_loan_number ← decodeOptInt (lookupKey kw "maximum_loan_number")
  pure
    { minimum_risk_grade := minimum_risk_grade
      maximum_risk_grade := maximum_risk_grade
      minimum_score := minimum_score
      maximum_score := maximum_score
      minimum_interest_rate := minimum_interest_rate
      maximum_interest_rate := maximum_interest_rate
      destination_whitelist := destination_whitelist
      destination_blacklist := destination_blacklist
      minimum_term := minimum_term
      maximum_term := maximum_term
      minimum_amount := minimum_amount
      maximum_amount := maximum_amount
      minimum_remaining_funding_amount := minimum_remaining_funding_amount
      maximum_remaining_funding_amount := maximum_remaining_funding_amount
      minimum_loan_number := minimum_loan_number
      maximum_loan_number := maximum_loan_number }

/-- The in-place whitelist/blacklist conversion of `Filter.parse_all_from_yaml`:
when the key is present with a non-null value, every element goes through
`Destination(value)`, which raises `ValueError` on an element matching no
member; a non-sequence value cannot be iterated (`TypeError`). -/
def convertDestinations (key : String) (entry : List (String × YVal)) : Except PyError Unit :=
  match lookupKey entry key with
  | none => .ok ()
  | some .null => .ok ()
  | some (.list l) =>
    if l.all (fun v => match v with | .s str => (Destination.ofRaw str).isSome | _ => false)
    then .ok () else .error .valueError
  | some (.s _) => .error .valueError
  | some _ => .error .typeError

/-- Processing of one `filters` entry by `Filter.parse_all_from_yaml`: convert
the destination whitelist and blacklist in place, run the key-dropping loop
(`popAllInvalid`), and construct the `Filter` from the surviving keyword
bindings. -/
def parseFilterEntry (entry : List (String × YVal)) : Except PyError Filter := do
  let _ ← convertDestinations "destination_whitelist" entry
  let _ ← convertDestinations "destination_blacklist" entry
  let kept ← popAllInvalid isFilterKey entry false
  Filter.fromKwargs kept

/-- Construct a `DetailedFilter` from a base filter and the classified
detailed-kind keyword bindings of one entry, defaulting every omitted detailed
criterion to unset; an explicit `base_filter` key would collide with the
positional `base_filter` argument (`TypeError`). -/
def DetailedFilter.fromKwargs (base : Filter) (kw : List (String × YVal)) :
    Except PyError DetailedFilter := do
  if kw.any (fun p => p.1 == "base_filter") then .error .typeError
  else do
  let minimum_monthly_payment ← decodeOptRat (lookupKey kw "minimum_monthly_payment")
  let maximum_monthly_payment ← decodeOptRat (lookupKey kw "maximum_monthly_payment")
  let minimum_credit_history_length ← decodeOptInt (lookupKey kw "minimum_credit_history_length")
  let maximum_credit_history_length ← decodeOptInt (lookupKey kw "maximum_credit_history_length")
  let minimum_credit_history_inquiries ← decodeOptInt (lookupKey kw "minimum_credit_history_inquiries")
  let maximum_credit_history_inquiries ← decodeOptInt (lookupKey kw "maximum_credit_history_inquiries")
  let minimum_opened_accounts ← decodeOptInt (lookupKey kw "minimum_opened_accounts")
  let maximum_opened_accounts ← decodeOptInt (lookupKey kw "maximum_opened_accounts")
  let minimum_total_income ← decodeOptRat (lookupKey kw "minimum_total_income")
  let maximum_total_income ← decodeOptRat (lookupKey kw "maximum_total_income")
  let minimum_total_expenses ← decodeOptRat (lookupKey kw "minimum_total_expenses")
  let maximum_total_expenses ← decodeOptRat (lookupKey kw "maximum_total_expenses")
  let minimum_age ← decodeOptInt (lookupKey kw "minimum_age")
  let maximum_age ← decodeOptInt (lookupKey kw "maximum_age")
  let minimum_dependents ← decodeOptInt (lookupKey kw "minimum_dependents")
  let maximum_dependents ← decodeOptInt (lookupKey kw "maximum_dependents")
  let has_major_medical_insurance ← decodeOptBool (lookupKey kw "has_major_medical_insurance")
  let has_own_vehicle ← decodeOptBool (lookupKey kw "has_own_vehicle")
  let housing_whitelist ← decodeOptEnumList Housing.ofRaw (lookupKey kw "housing_whitelist")
  let housing_blacklist ← decodeOptEnumList Housing.ofRaw (lookupKey kw "housing_blacklist")
  let minimum_tenure ← decodeOptInt (lookupKey kw "minimum_tenure")
  let maximum_tenure ← decodeOptInt (lookupKey kw "maximum_tenure")
  let occupation_type_whitelist ← decodeOptEnumList OccupationType.ofRaw (lookupKey kw "occupation_type_whitelist")
  let occupation_type_blacklist ← decodeOptEnumList OccupationType.ofRaw (lookupKey kw "occupation_type_blacklist")
  pure
    { toFilter := base
      minimum_monthly_payment := minimum_monthly_payment
      maximum_monthly_payment := maximum_monthly_payment
      minimum_credit_history_length := minimum_credit_history_length
      maximum_credit_history_length := maximum_credit_history_length
      minimum_credit_history_inquiries := minimum_credit_history_inquiries
      maximum_credit_history_inquiries := maximum_credit_history_inquiries
      minimum_opened_accounts := minimum_opened_accounts
      maximum_opened_accounts := maximum_opened_accounts
      minimum_total_income := minimum_total_income
      maximum_total_income := maximum_total_income
      minimum_total_expenses := minimum_total_expenses
      maximum_total_expenses := maximum_total_expenses
      minimum_age := minimum_age
      maximum_age := maximum_age
      minimum_dependents := minimum_dependents
      maximum_dependents := maximum_dependents
      has_major_medical_insurance := has_major_medical_insurance
      has_own_vehicle := has_own_vehicle
      housing_whitelist := housing_whitelist
      housing_blacklist := housing_blacklist
      minimum_tenure := minimum_tenure
      maximum_tenure := maximum_tenure
      occupation_type_whitelist := occupation_type_whitelist
      occupation_type_blacklist := occupation_type_blacklist }

/-- Processing of one `filters` entry by `DetailedFilter.parse_all_from_yaml`:
classify the entry's keys into base-kind and detailed-kind arguments by name,
then run the whitelist/blacklist conversions and the two constructions in
source order. Each conversion guard reads the corresponding attribute off a
plain `dict` (`base_filter_arguments.destination_whitelist` and its five
siblings); a `dict` has no such attribute, so whenever the guarded key is
present the attribute access itself raises `AttributeError`. -/
def parseDetailedEntry (entry : List (String × YVal)) : Except PyError DetailedFilter := do
  let baseArgs := entry.filter (fun p => isFilterKey p.1)
  let detailedArgs := entry.filter (fun p => isDetailedKey p.1)
  if baseArgs.any (fun p => p.1 == "destination_whitelist") then .error .attributeError
  else if baseArgs.any (fun p => p.1 == "destination_blacklist") then .error .attributeError
  else do
    let base ← Filter.fromKwargs baseArgs
    if detailedArgs.any (fun p => p.1 == "housing_whitelist") then .error .attributeError
    else if detailedArgs.any (fun p => p.1 == "housing_blacklist") then .error .attributeError
    else if detailedArgs.any (fun p => p.1 == "occupation_type_whitelist") then .error .attributeError
    else if detailedArgs.any (fun p => p.1 == "occupation_type_blacklist") then .error .attributeError
    else DetailedFilter.fromKwargs base detailedArgs

/-! Helper lemmas: each early-`return False` test is one factor of a Boolean
conjunction. -/

theorem if_chain (b x : Bool) : (if b then false else x) = (!b && x) := by
  cases b <;> simp

theorem meets_filter_eq_and (r : Requisition) (f : Filter) :
    r.meets_filter f =
      (!checkMin f.minimum_risk_grade r.grade &&
       (!checkMax f.maximum_risk_grade r.grade &&
        (!checkMin f.minimum_score r.score &&
         (!checkMax f.maximum_score r.score &&
          (!checkMin f.minimum_interest_rate r.interest_rate &&
           (!checkMax f.maximum_interest_rate r.interest_rate &&
            (!whitelistFails f.destination_whitelist r.destination &&
             (!blacklistFails f.destination_blacklist r.destination &&
              (!checkMin f.minimum_term r.term &&
               (!checkMax f.maximum_term r.term &&
                (!checkMin f.minimum_amount r.amount &&
                 (!checkMax f.maximum_amount r.amount &&
                  (!checkMin f.minimum_remaining_funding_amount r.remaining_funding_amount &&
                   (!checkMax f.maximum_remaining_funding_amount r.remaining_funding_amount &&
                    (!checkMin f.minimum_loan_number r.loan_number &&
                     !checkMax f.maximum_loan_number r.loan_number))))))))))))))) := by
  simp only [Requisition.meets_filter, if_chain, Bool.and_true]

theorem detailed_meets_eq_and (r : DetailedRequisition) (f : DetailedFilter) :
    r.meets_filter (AnyFilter.detailed f) =
      (r.toRequisition.meets_filter f.toFilter &&
       (!checkMin f.minimum_monthly_payment r.monthly_payment &&
        (!checkMax f.maximum_monthly_payment r.monthly_payment &&
         (!checkMin f.minimum_credit_history_length r.credit_history_length &&
          (!checkMax f.maximum_credit_history_length r.credit_history_length &&
           (!checkMin f.minimum_credit_history_inquiries r.credit_history_inquiries &&
            (!checkMax f.maximum_credit_history_inquiries r.credit_history_inquiries &&
             (!checkMin f.minimum_opened_accounts r.opened_accounts &&
              (!checkMax f.maximum_opened_accounts r.opened_accounts &&
               (!checkMin f.minimum_total_income r.total_income &&
                (!checkMax f.maximum_total_income r.total_income &&
                 (!checkMin f.minimum_total_expenses r.total_expenses &&
                  (!checkMax f.maximum_total_expenses r.total_expenses &&
                   (!checkMin f.minimum_age r.age &&
                    (!checkMax f.maximum_age r.age &&
                     (!checkMin f.minimum_dependents r.dependents &&
                      (!checkMax f.maximum_dependents r.dependents &&
                       (!flagFails f.has_major_medical_insurance r.has_major_medical_insurance &&
                        (!flagFails f.has_own_vehicle r.has_own_vehicle &&
                         (!whitelistFails f.housing_whitelist r.housing &&
                          (!blacklistFails f.housing_blacklist r.housing &&
                           (!checkMin f.minimum_tenure r.tenure &&
                            (!checkMax f.maximum_tenure r.tenure &&
                             (!whitelistFails f.occupation_type_whitelist r.occupation_type &&
                              !blacklistFails f.occupation_type_blacklist r.occupation_type
                              )))))))))))))))))))))))) := by
  simp only [DetailedRequisition.meets_filter, if_chain, Bool.and_true, Bool.not_not]

/-! Concrete example records and filters used by the witnesses. -/

def exRequisition : Requisition :=
  { id := "req-1"
    url := "https://example.test/req-1"
    grade := Grade.B3
    interest_rate := 17
    score := 620
    destination := .CAR
    term := 24
    amount := 15000
    remaining_funding_amount := 5000
    loan_number := 1 }

def exFilterBoth : Filter :=
  { Filter.noCriteria with
      destination_whitelist := some [.CAR, .BUSINESS]
      destination_blacklist := some [.CAR] }

/-- Claim C1: whenever a filter's destination whitelist and destination
blacklist are both set and both contain the record's destination, the
whitelist membership check (evaluated first) passes but the blacklist
membership check (evaluated second) still fails the record, so `meets_filter`
returns `false`. -/
theorem c1_blacklist_wins (r : Requisition) (f : Filter) (dw db : List Destination)
    (hw : f.destination_whitelist = some dw) (hb : f.destination_blacklist = some db)
    (hmw : r.destination ∈ dw) (hmb : r.destination ∈ db) :
    r.meets_filter f = false := by
  have hbl : blacklistFails f.destination_blacklist r.destination = true := by
    simp only [blacklistFails, hb, List.any_eq_true, decide_eq_true_eq]
    exact ⟨r.destination, hmb, rfl⟩
  rw [meets_filter_eq_and]
  simp [hbl]

theorem c1_blacklist_wins_witness :
    (exFilterBoth.destination_whitelist = some [Destination.CAR, Destination.BUSINESS]
      ∧ exFilterBoth.destination_blacklist = some [Destination.CAR]
      ∧ exRequisition.destination ∈ [Destination.CAR, Destination.BUSINESS]
      ∧ exRequisition.destination ∈ [Destination.CAR])
    ∧ exRequisition.meets_filter exFilterBoth = false :=
  ⟨⟨rfl, rfl, by decide, by decide⟩,
   c1_blacklist_wins exRequisition exFilterBoth
     [Destination.CAR, Destination.BUSINESS] [Destination.CAR]
     rfl rfl (by decide) (by decide)⟩

/-- Claim C3: a range criterion `(min, max)` fails exactly when the minimum is
set and greater than the field, or the maximum is set and less than the field;
with `min = max = f` the record matches, with `min = f + 1` it does not, and an
unset bound never fails; and `meets_filter` applies exactly this test (shown
here on the score field, whose declared criteria are the only ones set). -/
theorem c3_range_criterion :
    (∀ {α : Type} [inst : LinearOrder α] (mn mx : Option α) (v : α),
      ((checkMin mn v || checkMax mx v) = true ↔
        (∃ m, mn = some m ∧ m > v) ∨ (∃ M, mx = some M ∧ M < v))
      ∧ (checkMin (some v) v || checkMax (some v) v) = false
      ∧ checkMin (none : Option α) v = false
      ∧ checkMax (none : Option α) v = false)
    ∧ (∀ v : Int, checkMin (some (v + 1)) v = true)
    ∧ (∀ (r : Requisition) (mn mx : Option Int),
        r.meets_filter
          { Filter.noCriteria with minimum_score := mn, maximum_score := mx }
          = (!checkMin mn r.score && !checkMax mx r.score)) := by
  refine ⟨?_, ?_, ?_⟩
  · intro α inst mn mx v
    refine ⟨?_, ?_, rfl, rfl⟩
    · cases mn <;> cases mx <;> simp [checkMin, checkMax]
    · simp [checkMin, checkMax]
  · intro v
    simp [checkMin]
  · intro r mn mx
    rw [meets_filter_eq_and]
    simp [Filter.noCriteria, checkMin, checkMax, whitelistFails, blacklistFails]

theorem c3_range_criterion_witness :
    ((checkMin (some (5 : Int)) 5 || checkMax (some (5 : Int)) 5) = false)
    ∧ checkMin (some ((4 : Int) + 1)) 4 = true :=
  ⟨(c3_range_criterion.1 (some 5) (some 5) 5).2.1, c3_range_criterion.2.1 4⟩

/-- Claim C4: a base-kind filter applied to two detailed records that agree on
all base fields produces the same result: the detailed fields have no influence
on the outcome. -/
theorem c4_base_filter_ignores_detailed_fields (f : Filter) (r1 r2 : DetailedRequisition)
    (h : r1.toRequisition = r2.toRequisition) :
    r1.meets_filter (AnyFilter.base f) = r2.meets_filter (AnyFilter.base f) := by
  simp [DetailedRequisition.meets_filter, h]

def exDetailedA : DetailedRequisition :=
  { toRequisition := exRequisition
    monthly_payment := 1200
    credit_history_length := 5
    credit_history_inquiries := 2
    opened_accounts := 3
    total_income := 30000
    total_expenses := 10000
    age := 30
    dependents := 1
    has_major_medical_insurance := true
    has_own_vehicle := false
    education := .PROFESIONAL
    state_of_residence := "Jalisco"
    housing := .RENTED
    occupation := "Ingeniero"
    tenure := 4
    occupation_type := .EMPLOYEE }

def exDetailedB : DetailedRequisition :=
  { toRequisition := exRequisition
    monthly_payment := 9999
    credit_history_length := 1
    credit_history_inquiries := 9
    opened_accounts := 7
    total_income := 5000
    total_expenses := 4900
    age := 61
    dependents := 6
    has_major_medical_insurance := false
    has_own_vehicle := true
    education := .UNKNOWN
    state_of_residence := "Sonora"
    housing := .OWNER
    occupation := ""
    tenure := 0
    occupation_type := .BUSINESS_OWNER }

theorem c4_base_filter_ignores_detailed_fields_witness :
    (exDetailedA.toRequisition = exDetailedB.toRequisition)
    ∧ exDetailedA ≠ exDetailedB
    ∧ exDetailedA.meets_filter (AnyFilter.base exFilterBoth)
        = exDetailedB.meets_filter (AnyFilter.base exFilterBoth) :=
  ⟨rfl, by decide,
   c4_base_filter_ignores_detailed_fields exFilterBoth exDetailedA exDetailedB rfl⟩

/-- Claim C9: the `DetailedRequisition` constructed from a base `Requisition`
carries every base field with a value identical to the base record's
corresponding field (the base fields are copied in at construction). -/
theorem c9_construction_copies_base_fields (b : Requisition) (mp : ℚ)
    (chl chi oa : Int) (ti te : ℚ) (age dep : Int) (mi ov : Bool)
    (ed : Education) (sor : String) (ho : Housing) (occ : String)
    (ten : Int) (ot : OccupationType) :
    let d := DetailedRequisition.fromBase b mp chl chi oa ti te age dep mi ov ed sor ho occ ten ot
    d.toRequisition.id = b.id
    ∧ d.toRequisition.url = b.url
    ∧ d.toRequisition.grade = b.grade
    ∧ d.toRequisition.interest_rate = b.interest_rate
    ∧ d.toRequisition.score = b.score
    ∧ d.toRequisition.destination = b.destination
    ∧ d.toRequisition.term = b.term
    ∧ d.toRequisition.amount = b.amount
    ∧ d.toRequisition.remaining_funding_amount = b.remaining_funding_amount
    ∧ d.toRequisition.loan_number = b.loan_number
    ∧ d.toRequisition = b :=
  ⟨rfl, rfl, rfl, rfl, rfl, rfl, rfl, rfl, rfl, rfl, rfl⟩

/-- Claim C2: a `DetailedFilter` applied to a `DetailedRequisition` evaluates
the base criteria first (delegating to the base matcher); if they fail the
result is `false` without regard to the detailed criteria, and the result is
`true` exactly when the base criteria and every set detailed criterion pass. -/
theorem c2_detailed_filter_base_first (r : DetailedRequisition) (df : DetailedFilter) :
    (r.toRequisition.meets_filter df.toFilter = false →
      r.meets_filter (AnyFilter.detailed df) = false)
    ∧ (r.meets_filter (AnyFilter.detailed df) = true ↔
        (r.toRequisition.meets_filter df.toFilter = true
         ∧ checkMin df.minimum_monthly_payment r.monthly_payment = false
         ∧ checkMax df.maximum_monthly_payment r.monthly_payment = false
         ∧ checkMin df.minimum_credit_history_length r.credit_history_length = false
         ∧ checkMax df.maximum_credit_history_length r.credit_history_length = false
         ∧ checkMin df.minimum_credit_history_inquiries r.credit_history_inquiries = false
         ∧ checkMax df.maximum_credit_history_inquiries r.credit_history_inquiries = false
         ∧ checkMin df.minimum_opened_accounts r.opened_accounts = false
         ∧ checkMax df.maximum_opened_accounts r.opened_accounts = false
         ∧ checkMin df.minimum_total_income r.total_income = false
         ∧ checkMax df.maximum_total_income r.total_income = false
         ∧ checkMin df.minimum_total_expenses r.total_expenses = false
         ∧ checkMax df.maximum_total_expenses r.total_expenses = false
         ∧ checkMin df.minimum_age r.age = false
         ∧ checkMax df.maximum_age r.age = false
         ∧ checkMin df.minimum_dependents r.dependents = false
         ∧ checkMax df.maximum_dependents r.dependents = false
         ∧ flagFails df.has_major_medical_insurance r.has_major_medical_insurance = false
         ∧ flagFails df.has_own_vehicle r.has_own_vehicle = false
         ∧ whitelistFails df.housing_whitelist r.housing = false
         ∧ blacklistFails df.housing_blacklist r.housing = false
         ∧ checkMin df.minimum_tenure r.tenure = false
         ∧ checkMax df.maximum_tenure r.tenure = false
         ∧ whitelistFails df.occupation_type_whitelist r.occupation_type = false
         ∧ blacklistFails df.occupation_type_blacklist r.occupation_type = false)) := by
  constructor
  · intro h
    rw [detailed_meets_eq_and, h]
    simp
  · rw [detailed_meets_eq_and]
    simp [Bool.and_eq_true]

def exDetailedFilterBaseFail : DetailedFilter :=
  DetailedFilter.noCriteria { Filter.noCriteria with minimum_score := some 700 }

theorem c2_detailed_filter_base_first_witness :
    (exDetailedA.toRequisition.meets_filter exDetailedFilterBaseFail.toFilter = false)
    ∧ exDetailedA.meets_filter (AnyFilter.detailed exDetailedFilterBaseFail) = false :=
  ⟨by decide,
   (c2_detailed_filter_base_first exDetailedA exDetailedFilterBaseFail).1 (by decide)⟩

/-- Claim C10: a whitelist criterion that is set to the empty list rejects every
record, while a blacklist criterion set to the empty list imposes no
constraint; this holds alike for the destination, housing, and occupation-type
list criteria. -/
theorem c10_empty_whitelist_rejects_empty_blacklist_noop :
    (∀ (r : Requisition) (f : Filter),
      r.meets_filter { f with destination_whitelist := some [] } = false)
    ∧ (∀ (r : Requisition) (f : Filter),
      r.meets_filter { f with destination_blacklist := some [] }
        = r.meets_filter { f with destination_blacklist := none })
    ∧ (∀ (r : DetailedRequisition) (df : DetailedFilter),
      r.meets_filter (AnyFilter.detailed { df with housing_whitelist := some [] }) = false)
    ∧ (∀ (r : DetailedRequisition) (df : DetailedFilter),
      r.meets_filter (AnyFilter.detailed { df with housing_blacklist := some [] })
        = r.meets_filter (AnyFilter.detailed { df with housing_blacklist := none }))
    ∧ (∀ (r : DetailedRequisition) (df : DetailedFilter),
      r.meets_filter (AnyFilter.detailed { df with occupation_type_whitelist := some [] }) = false)
    ∧ (∀ (r : DetailedRequisition) (df : DetailedFilter),
      r.meets_filter (AnyFilter.detailed { df with occupation_type_blacklist := some [] })
        = r.meets_filter (AnyFilter.detailed { df with occupation_type_blacklist := none })) := by
  refine ⟨?_, ?_, ?_, ?_, ?_, ?_⟩
  · intro r f
    rw [meets_filter_eq_and]
    simp [whitelistFails]
  · intro r f
    rw [meets_filter_eq_and, meets_filter_eq_and]
    simp [blacklistFails]
  · intro r df
    rw [detailed_meets_eq_and]
    simp [whitelistFails]
  · intro r df
    rw [detailed_meets_eq_and, detailed_meets_eq_and]
    simp [blacklistFails]
  · intro r df
    rw [detailed_meets_eq_and]
    simp [whitelistFails]
  · intro r df
    rw [detailed_meets_eq_and, detailed_meets_eq_and]
    simp [blacklistFails]

/-- Sanity check of the loader model: an entry whose keys are all declared
criteria passes the key-dropping loop untouched and constructs the filter with
the given criteria set and every omitted criterion unset. -/
theorem parseFilterEntry_valid_entry_ok :
    parseFilterEntry
        [("minimum_score", YVal.i 600), ("destination_whitelist", YVal.list [YVal.s "Automóvil"])]
      = Except.ok
          { Filter.noCriteria with
              minimum_score := some 600
              destination_whitelist := some [Destination.CAR] } := by
  rfl

/-- Sanity check of the loader model: an entry with no whitelist/blacklist key
is classified and constructed without reaching a broken conversion guard. -/
theorem parseDetailedEntry_scalar_entry_ok :
    parseDetailedEntry [("minimum_score", YVal.i 600), ("minimum_age", YVal.i 25)]
      = Except.ok
          (DetailedFilter.noCriteria { Filter.noCriteria with minimum_score := some 600 }
            |> fun d => { d with minimum_age := some 25 }) := by
  rfl

/-- Claim C5 (the claim as stated is contradicted by the code): processing an
entry that carries a key which is not a declared `Filter` criterion raises
`RuntimeError`, because the key-dropping loop pops the key from the dictionary
it is iterating and the next iteration step detects the size change; the key is
not silently dropped. -/
theorem c5_unknown_key_raises_runtime_error :
    parseFilterEntry [("comment", YVal.s "extra"), ("minimum_score", YVal.i 600)]
      = Except.error PyError.runtimeError := by
  rfl

/-- Claim C6 (the claim as stated is contradicted by the code): processing an
entry whose destination whitelist is present makes
`DetailedFilter.parse_all_from_yaml` raise `AttributeError` before any enum
conversion, because the conversion guard reads
`base_filter_arguments.destination_whitelist` off a plain `dict`. -/
theorem c6_list_key_raises_attribute_error :
    parseDetailedEntry [("destination_whitelist", YVal.list [YVal.s "Familiar"])]
      = Except.error PyError.attributeError := by
  rfl

/-- Claim C7: the empty string parses to the `UNKNOWN` member of `Housing`,
`OccupationType` and `Education`, and a non-empty string matching no declared
member is a parse error (`none`) rather than a silent coercion. -/
theorem c7_enum_parsing :
    (Housing.ofRaw "" = some Housing.UNKNOWN)
    ∧ (OccupationType.ofRaw "" = some OccupationType.UNKNOWN)
    ∧ (Education.parse "" = some Education.UNKNOWN)
    ∧ (∀ s : String, (∀ h : Housing, Housing.rawValue h ≠ s) → Housing.ofRaw s = none)
    ∧ (∀ s : String, (∀ o : OccupationType, OccupationType.rawValue o ≠ s) →
        OccupationType.ofRaw s = none)
    ∧ (∀ s : String, s ≠ "" → Education.lookupName s.toUpper = none →
        Education.parse s = none) := by
  refine ⟨rfl, rfl, rfl, ?_, ?_, ?_⟩
  · intro s h
    rw [Housing.ofRaw, List.find?_eq_none]
    intro x _
    simp only [beq_iff_eq]
    exact h x
  · intro s h
    rw [OccupationType.ofRaw, List.find?_eq_none]
    intro x _
    simp only [beq_iff_eq]
    exact h x
  · intro s hne hl
    rw [Education.parse, if_neg hne]
    exact hl

theorem c7_enum_parsing_witness :
    ((∀ h : Housing, Housing.rawValue h ≠ "Hipotecada")
      ∧ Housing.ofRaw "Hipotecada" = none) :=
  ⟨by decide, c7_enum_parsing.2.2.2.1 "Hipotecada" (by decide)⟩

/-- Claim C8: the filtered result of a record collection against a filter list
is exactly the records matched by some filter in the list; matching against
`[f1, f2]` is the union of matching against `[f1]` and `[f2]`, and the empty
filter list yields the empty result. -/
theorem c8_union_semantics :
    (∀ (R : List Requisition) (F : List Filter) (r : Requisition),
      r ∈ filterRequisitions R F ↔ r ∈ R ∧ ∃ f, f ∈ F ∧ r.meets_filter f = true)
    ∧ (∀ (R : List Requisition) (f1 f2 : Filter) (r : Requisition),
      r ∈ filterRequisitions R [f1, f2] ↔
        r ∈ filterRequisitions R [f1] ∨ r ∈ filterRequisitions R [f2])
    ∧ (∀ R : List Requisition, filterRequisitions R [] = []) := by
  refine ⟨?_, ?_, ?_⟩
  · intro R F r
    simp [filterRequisitions, List.mem_filter, List.any_eq_true]
  · intro R f1 f2 r
    simp only [filterRequisitions, List.mem_filter, List.any_cons, List.any_nil,
      Bool.or_false, Bool.or_eq_true]
    tauto
  · intro R
    simp [filterRequisitions]

end Lender
